import Mathlib

/-!
Verification of the Notifications-Hub dispatch engine.

This file gives a shallow embedding of the dispatcher's data model and
operations (notification rows, the repository operations over them, the
worker-pool event handlers, the retry/backoff policy engine, the SMS
adapter, phone-number normalization, the send route's validation, and the
user-notification listing), together with theorems settling the spec's
claims about them.

Conventions of the embedding:
- timestamps are naturals (milliseconds); `now` parameters stand for the
  wall-clock reads (`new Date()`, `CURRENT_TIMESTAMP`) of the source;
- the notifications table is modelled as a `List Notification`; where a
  query sorts by `created_at DESC`, the list is taken to be the table in
  that order;
- phone numbers are modelled as `List Char` (a string is its character
  list);
- fallible operations return `Except String` carrying the thrown `Error`
  message (the source has no typed error classes; every throw is a plain
  `Error` with a message).
-/

namespace NotifHub

/-- The five delivery channels (`retryConfigs` keys, `processNotification`
switch cases). -/
inductive Channel
  | email
  | sms
  | push
  | slack
  | telegram
deriving DecidableEq, Repr

/-- `backoffType` of a retry configuration. -/
inductive BackoffType
  | exponential
  | fixed
deriving DecidableEq, Repr

/-- `RetryConfig` of `NotificationQueueProcessor` (maxRetries, backoffType,
backoffDelay, optional maxBackoffDelay). -/
structure RetryConfig where
  maxRetries : Nat
  backoffType : BackoffType
  backoffDelay : Nat
  maxBackoffDelay : Option Nat
deriving DecidableEq, Repr

/-- The per-channel retry table `NotificationQueueProcessor.retryConfigs`. -/
def retryConfigs : Channel → RetryConfig
  | Channel.email => ⟨5, BackoffType.exponential, 2000, some 300000⟩
  | Channel.sms => ⟨3, BackoffType.exponential, 5000, some 600000⟩
  | Channel.push => ⟨4, BackoffType.exponential, 1000, some 120000⟩
  | Channel.slack => ⟨3, BackoffType.fixed, 10000, none⟩
  | Channel.telegram => ⟨3, BackoffType.fixed, 10000, none⟩

/-- JavaScript `a || d` on an optional number: `undefined` and `0` are both
falsy, so the default applies to either. -/
def jsOrNat : Option Nat → Nat → Nat
  | some n, d => if n = 0 then d else n
  | none, d => d

/-- The delay computation of `NotificationQueueProcessor.scheduleRetry`:
exponential backoff is `min(backoffDelay * 2^(retryCount-1),
maxBackoffDelay || backoffDelay * 10)`, fixed backoff is `backoffDelay`.
`retryCount` is the 1-indexed retry attempt. -/
def retryDelay (cfg : RetryConfig) (retryCount : Nat) : Nat :=
  match cfg.backoffType with
  | BackoffType.exponential =>
      min (cfg.backoffDelay * 2 ^ (retryCount - 1))
        (jsOrNat cfg.maxBackoffDelay (cfg.backoffDelay * 10))
  | BackoffType.fixed => cfg.backoffDelay

/-- Modelled from the spec, for comparison with `retryDelay`: the §4.5
table and formula, "exponential ⇒ min(base · 2^(k−1), cap ?? base·10);
fixed ⇒ base" with the spec's per-channel base and cap values. -/
def specBackoffDelay (ch : Channel) (k : Nat) : Nat :=
  match ch with
  | Channel.email => min (2000 * 2 ^ (k - 1)) 300000
  | Channel.sms => min (5000 * 2 ^ (k - 1)) 600000
  | Channel.push => min (1000 * 2 ^ (k - 1)) 120000
  | Channel.slack => 10000
  | Channel.telegram => 10000

/-- Row lifecycle statuses written by the dispatcher
(`pending`, `queued`, `processing`, `sent`, `failed`, `retrying`). -/
inductive Status
  | pending
  | queued
  | processing
  | sent
  | failed
  | retrying
deriving DecidableEq, Repr

/-- A row of the `notifications` table (the columns the dispatch engine
reads and writes). -/
structure Notification where
  id : Nat
  user_id : Option Nat
  channel : Channel
  recipient : String
  subject : Option String
  content : String
  status : Status
  retry_count : Nat
  max_retries : Nat
  priority : String
  scheduled_at : Nat
  sent_at : Option Nat
  last_processed_at : Option Nat
  created_at : Nat
  updated_at : Nat
deriving DecidableEq, Repr

/-- `NotificationModel.create`: the INSERT sets user_id, channel,
recipient, subject, content, status, `max_retries || 3` and scheduled_at;
retry_count defaults to 0, sent_at and last_processed_at to NULL, and
priority to the schema default since the INSERT's column list omits it. -/
def NotificationModel.create (id now : Nat) (user_id : Option Nat)
    (channel : Channel) (recipient : String) (subject : Option String)
    (content : String) (status : Status) (max_retries : Option Nat)
    (scheduled_at : Option Nat) : Notification :=
  { id := id
    user_id := user_id
    channel := channel
    recipient := recipient
    subject := subject
    content := content
    status := status
    retry_count := 0
    max_retries := jsOrNat max_retries 3
    priority := "normal"
    scheduled_at := scheduled_at.getD now
    sent_at := none
    last_processed_at := none
    created_at := now
    updated_at := now }

/-- `NotificationModel.updateStatus`: `sentAt = status === "sent" ? new
Date() : null`, then `SET status = $1, updated_at = CURRENT_TIMESTAMP,
sent_at = $2` — sent_at is overwritten unconditionally. -/
def NotificationModel.updateStatus (now : Nat) (status : Status)
    (n : Notification) : Notification :=
  { n with
    status := status
    updated_at := now
    sent_at := if status = Status.sent then some now else none }

/-- `NotificationModel.updateLastProcessed`. -/
def NotificationModel.updateLastProcessed (now : Nat) (n : Notification) :
    Notification :=
  { n with last_processed_at := some now, updated_at := now }

/-- `NotificationModel.incrementRetryCount`. -/
def NotificationModel.incrementRetryCount (now : Nat) (n : Notification) :
    Notification :=
  { n with retry_count := n.retry_count + 1, updated_at := now }

/-- `NotificationQueueProcessor.updateNotificationStatus`: updateStatus,
append a log row, then updateLastProcessed (the row effect composes the
two repository updates). -/
def updateNotificationStatus (now : Nat) (st : Status) (n : Notification) :
    Notification :=
  NotificationModel.updateLastProcessed now
    (NotificationModel.updateStatus now st n)

/-- Outcome decided by the worker `failed` handler: schedule a retry or
mark the row permanently failed. -/
inductive FailedAction
  | scheduleRetry (newRetryCount : Nat) (delay : Nat)
  | markFailed (reason : String)
deriving DecidableEq, Repr

/-- Whether a `FailedAction` schedules a retry. -/
def FailedAction.isRetry : FailedAction → Bool
  | FailedAction.scheduleRetry _ _ => true
  | FailedAction.markFailed _ => false

/-- The worker `failed` handler of
`NotificationQueueProcessor.setupEventHandlers`: with `currentRetries` the
row's retry_count, it schedules a retry (via `scheduleRetry`, which
computes the delay for attempt `currentRetries + 1`) iff `currentRetries <
retryConfig.maxRetries`, and otherwise marks the row failed; the error
contributes only its message text. -/
def onFailed (channel : Channel) (currentRetries : Nat)
    (errMessage : String) : FailedAction :=
  let cfg := retryConfigs channel
  if currentRetries < cfg.maxRetries then
    FailedAction.scheduleRetry (currentRetries + 1)
      (retryDelay cfg (currentRetries + 1))
  else
    FailedAction.markFailed
      ("Max retries (" ++ toString cfg.maxRetries ++
        ") exceeded. Last error: " ++ errMessage)

/-- One dispatcher/worker/admin operation on a notification row:
`queue` is `queueNotification` (also reached from the manual retry
endpoint `retryNotification`), `claim` is the start of
`processNotification`, `complete` is the worker `completed` handler,
`retrySched` is `scheduleRetry`'s `incrementRetryCount` (guarded by the
`failed` handler's retry test), and `fail` is the `failed` handler's
terminal branch. -/
inductive Step : Notification → Notification → Prop
  | queue (n : Notification) (now : Nat) :
      Step n (updateNotificationStatus now Status.queued n)
  | claim (n : Notification) (now : Nat) :
      Step n (updateNotificationStatus now Status.processing n)
  | complete (n : Notification) (now : Nat) :
      Step n (updateNotificationStatus now Status.sent n)
  | retrySched (n : Notification) (now : Nat)
      (h : n.retry_count < (retryConfigs n.channel).maxRetries) :
      Step n (NotificationModel.incrementRetryCount now n)
  | fail (n : Notification) (now : Nat)
      (h : ¬ n.retry_count < (retryConfigs n.channel).maxRetries) :
      Step n (updateNotificationStatus now Status.failed n)

/-- Rows reachable in an execution: created by
`NotificationService.sendNotification` (which always passes status
`pending` and `max_retries: 3` to `NotificationModel.create`), then
mutated by dispatcher operations. -/
inductive Reachable : Notification → Prop
  | init (id now : Nat) (user_id : Option Nat) (channel : Channel)
      (recipient : String) (subject : Option String) (content : String)
      (scheduled_at : Option Nat) :
      Reachable (NotificationModel.create id now user_id channel recipient
        subject content Status.pending (some 3) scheduled_at)
  | step {a b : Notification} : Reachable a → Step a b → Reachable b

/-- What the SMS provider did with a message: accepted it (returning a
sid and a status) or rejected it (the client library throws an error with
a message, which `sendSMS` catches). -/
inductive ProviderOutcome
  | accepted (sid : String) (deliveryStatus : String)
  | rejected (errMessage : String)
deriving DecidableEq, Repr

/-- `true` iff the provider accepted the message. -/
def ProviderOutcome.isAccepted : ProviderOutcome → Bool
  | ProviderOutcome.accepted _ _ => true
  | ProviderOutcome.rejected _ => false

/-- `SMSResult` of `SMSService`. -/
structure SMSResult where
  success : Bool
  messageId : Option String := none
  deliveryStatus : Option String := none
  error : Option String := none
deriving DecidableEq, Repr

/-- `SMSService.sendSMS`: throws only when the service is not configured;
a provider rejection is caught and returned as an ordinary result with
`success: false` and the error message — it is not re-thrown. -/
def sendSMS (isConfigured : Bool) (o : ProviderOutcome) :
    Except String SMSResult :=
  if isConfigured = false then
    Except.error "SMS service is not configured. Please check Twilio settings."
  else
    match o with
    | ProviderOutcome.accepted sid st =>
        Except.ok { success := true, messageId := some sid,
                    deliveryStatus := some st }
    | ProviderOutcome.rejected m =>
        Except.ok { success := false, error := some m }

/-- One worker cycle for an SMS job: `processNotification` transitions the
row to `processing` and calls `smsService.send`; if that call returns (an
`Except.ok`), the job completes and the `completed` handler transitions
the row to `sent`; if it throws, the `failed` handler either schedules a
retry (incrementing retry_count) or marks the row failed. -/
def runSmsJob (isConfigured : Bool) (o : ProviderOutcome)
    (now1 now2 : Nat) (n : Notification) : Notification :=
  let n1 := updateNotificationStatus now1 Status.processing n
  match sendSMS isConfigured o with
  | Except.ok _ => updateNotificationStatus now2 Status.sent n1
  | Except.error e =>
      match onFailed n1.channel n1.retry_count e with
      | FailedAction.scheduleRetry _ _ =>
          NotificationModel.incrementRetryCount now2 n1
      | FailedAction.markFailed _ =>
          updateNotificationStatus now2 Status.failed n1

/-- The digit characters of a string, in order (`replace(/\D/g, "")`). -/
def digitsOf (s : List Char) : List Char := s.filter Char.isDigit

/-- JavaScript `phoneNumber.startsWith("+")`. -/
def startsWithPlus : List Char → Bool
  | [] => false
  | c :: _ => c = '+'

/-- `SMSService.formatPhoneNumber`: strip non-digits; exactly 10 digits ⇒
prepend `+1` to the digits; more than 10 digits and the input does not
start with `+` ⇒ prepend `+` to the digits; otherwise return the input
unchanged. -/
def formatPhoneNumber (phoneNumber : List Char) : List Char :=
  let cleaned := digitsOf phoneNumber
  if cleaned.length = 10 then '+' :: '1' :: cleaned
  else if cleaned.length > 10 ∧ startsWithPlus phoneNumber = false then
    '+' :: cleaned
  else phoneNumber

/-- A row of the `notification_logs` table (the fields the dispatch engine
writes). -/
structure Log where
  notification_id : Nat
  logStatus : String
  message : String
deriving DecidableEq, Repr

/-- A broker job as enqueued by the processor. -/
structure QueuedJob where
  jobId : String
  notificationId : Nat
  delay : Nat
deriving DecidableEq, Repr

/-- The state the standalone worker process can observe or change:
notification rows, broker queue, notification_logs, console output. -/
structure WorkerState where
  rows : List Notification
  queue : List QueuedJob
  logs : List Log
  console : List String
deriving DecidableEq, Repr

/-- The 30-second interval body of `startWorker` (worker.ts):
`healthCheck()` reads the queue counts and the redis status and reports
`healthy ⇔ redis status = "ready"`; the interval body only logs to the
console when unhealthy. -/
def healthCheckTick (redisStatus : String) (s : WorkerState) : WorkerState :=
  if redisStatus = "ready" then s
  else { s with console := s.console ++ ["Worker health check failed"] }

/-- The worker `stalled` event handler: it only logs a warning. -/
def onStalled (jobId : String) (s : WorkerState) : WorkerState :=
  { s with console := s.console ++ ["Job " ++ jobId ++ " stalled"] }

/-- `NotificationModel.getStaleNotifications`: rows with `status =
'processing'` and `last_processed_at < now - minutesStale minutes` (NULL
last_processed_at fails the comparison). Times are in milliseconds. -/
def getStaleNotifications (now minutesStale : Nat)
    (rows : List Notification) : List Notification :=
  rows.filter (fun n =>
    n.status == Status.processing &&
      (match n.last_processed_at with
       | some t => decide (t < now - minutesStale * 60000)
       | none => false))

/-- An entry of the request body's `channels` array; `none` models an
absent (or non-string) field — the route validates none of this. -/
structure ChannelEntry where
  type : Option String
  recipient : Option String
deriving DecidableEq, Repr

/-- The JSON body of `POST /api/notifications/send` as the validators see
it: `none` models an absent field (or one of the wrong type). The
validators reference `userId`, `channels`, `message.title`,
`message.body` and `priority`; `scheduledAt` appears in no validator. -/
structure SendBody where
  userId : Option String
  channels : Option (List ChannelEntry)
  messageTitle : Option String
  messageBody : Option String
  priority : Option String
  scheduledAt : Option String
deriving DecidableEq, Repr

/-- Membership test of `body("priority").isIn([...])`. -/
def validPriority (p : String) : Bool :=
  p == "low" || p == "normal" || p == "high" || p == "urgent"

/-- The validator chain of the `/send` route:
`body("userId").isString().notEmpty()`,
`body("channels").isArray().notEmpty()`,
`body("message.title").isString().notEmpty()`,
`body("message.body").isString().notEmpty()`,
`body("priority").isIn(["low","normal","high","urgent"]).optional()`. -/
def validateSend (b : SendBody) : Bool :=
  (match b.userId with | some s => s != "" | none => false) &&
  (match b.channels with | some l => !l.isEmpty | none => false) &&
  (match b.messageTitle with | some s => s != "" | none => false) &&
  (match b.messageBody with | some s => s != "" | none => false) &&
  (match b.priority with | some p => validPriority p | none => true)

/-- A recognized channel `type` (the five adapters). -/
def recognizedChannelType (t : String) : Bool :=
  t == "email" || t == "sms" || t == "push" || t == "slack" || t == "telegram"

/-- Modelled from the spec, for comparison with `validateSend`: the §6
validation rule "channels non-empty; each has a recognized type and a
non-empty recipient; priority ∈ {low, normal, high, urgent}; scheduledAt
ISO 8601 if present" with userId optional; `isoOk` abstracts the ISO 8601
well-formedness test. -/
def specValidateSend (isoOk : String → Bool) (b : SendBody) : Bool :=
  (match b.channels with
   | some l =>
       !l.isEmpty && l.all (fun c =>
         (match c.type with
          | some t => recognizedChannelType t
          | none => false) &&
         (match c.recipient with
          | some r => r != ""
          | none => false))
   | none => false) &&
  (match b.priority with | some p => validPriority p | none => true) &&
  (match b.scheduledAt with | some s => isoOk s | none => true)

/-- Whether the INSERT of `NotificationModel.create` succeeds for one
channel entry of a validated body. The schema declares `channel
VARCHAR(50) NOT NULL` and `recipient VARCHAR(255) NOT NULL`, so an entry
with `type` or `recipient` absent inserts NULL there and the INSERT
throws; `accept` abstracts the remaining DB-state- and value-dependent
conditions (the `user_id` foreign key to `notification_users` after
`Number.parseInt(userId)`, and the VARCHAR width limits). The other
inserted columns cannot fail: content is the serialized message object
(non-null), subject is nullable, status/max_retries/scheduled_at are
always supplied. -/
def insertOk (accept : String → ChannelEntry → Bool) (userId : String)
    (entry : ChannelEntry) : Bool :=
  entry.type.isSome && entry.recipient.isSome && accept userId entry

/-- The observable outcome of the `/send` handler: the HTTP status and how
many notification rows were persisted. -/
structure SendResponse where
  respStatus : Nat
  persisted : Nat
deriving DecidableEq, Repr

/-- The `/send` route handler: 400 with nothing persisted when the
validator chain fails; otherwise `sendNotification` inserts one row per
channel entry in order (each followed by a log append and a broker
enqueue, assumed available). If every insert succeeds the route answers
201; if an insert throws (see `insertOk`) the loop stops, the catch
answers 500, and — there being no transaction — the rows inserted before
the failing one stay persisted. -/
def postSend (accept : String → ChannelEntry → Bool) (b : SendBody) :
    SendResponse :=
  if validateSend b then
    let entries := b.channels.getD []
    let okPrefix := entries.takeWhile (insertOk accept (b.userId.getD ""))
    if okPrefix.length = entries.length then
      { respStatus := 201, persisted := entries.length }
    else
      { respStatus := 500, persisted := okPrefix.length }
  else
    { respStatus := 400, persisted := 0 }

/-- Whether a row belongs to the given user as
`NotificationService.getUserNotifications` tests it:
`n.user_id?.toString() === userId` (a row without user_id matches no
userId string). -/
def matchesUser (userId : String) (n : Notification) : Bool :=
  match n.user_id with
  | some u => toString u == userId
  | none => false

/-- `NotificationModel.list(limit, offset, status?)`. With a status the
SQL references $1 (the WHERE clause), $2 and $3 and the query returns the
status-filtered page of the created_at-DESC table (`db` is the table in
that order). Without a status the SQL references only $2 and $3 while the
call still binds three parameters `[status, limit, offset]`; PostgreSQL
rejects a statement with an unreferenced lower-numbered parameter at
parse time, so the call throws instead of returning rows. -/
def NotificationModel.list (db : List Notification) (limit offset : Nat)
    (status : Option Status) : Except String (List Notification) :=
  match status with
  | some st =>
      Except.ok (((db.filter (fun n => n.status == st)).drop offset).take
        limit)
  | none => Except.error "could not determine data type of parameter $1"

/-- The value `NotificationService.getUserNotifications` returns. -/
structure UserNotificationsResult where
  notifications : List Notification
  total : Nat
  page : Nat
  limit : Nat
  totalPages : Nat
deriving DecidableEq, Repr

/-- `NotificationService.getUserNotifications`: compute `offset = (page -
1) * limit` and call `NotificationModel.list(limit, offset)` with no
status — the variant whose query PostgreSQL rejects, so the throw
propagates (the route answers 500). Were a page returned, the function
would filter it by user (skipped when `userId` is the empty string, falsy
in JavaScript) and report `total` as the filtered page's length. -/
def getUserNotifications (db : List Notification) (userId : String)
    (page limit : Nat) : Except String UserNotificationsResult :=
  let offset := (page - 1) * limit
  match NotificationModel.list db limit offset none with
  | Except.error e => Except.error e
  | Except.ok notifications =>
      let userNotifications :=
        if userId = "" then notifications
        else notifications.filter (matchesUser userId)
      Except.ok
        { notifications := userNotifications
          total := userNotifications.length
          page := page
          limit := limit
          totalPages := (userNotifications.length + limit - 1) / limit }

/-! Concrete rows, bodies and states used by counterexamples and
witnesses. -/

/-- An email-channel row as created by `sendNotification`. -/
def rowC2a : Notification :=
  NotificationModel.create 1 0 none Channel.email "a@b.c" (some "Hi")
    "Hello" Status.pending (some 3) (some 0)

/-- `rowC2a` after `queueNotification`. -/
def rowC2b : Notification := updateNotificationStatus 1 Status.queued rowC2a

/-- `rowC2b` claimed by a worker. -/
def rowC2c : Notification :=
  updateNotificationStatus 2 Status.processing rowC2b

/-- `rowC2c` after one scheduled retry. -/
def rowC2d : Notification := NotificationModel.incrementRetryCount 3 rowC2c

/-- `rowC2d` after a second scheduled retry. -/
def rowC2e : Notification := NotificationModel.incrementRetryCount 4 rowC2d

/-- `rowC2e` after a third scheduled retry. -/
def rowC2f : Notification := NotificationModel.incrementRetryCount 5 rowC2e

/-- `rowC2f` after a fourth scheduled retry: retry_count 4 on a row whose
max_retries is 3 (the email channel config allows 5 retries). -/
def rowC2g : Notification := NotificationModel.incrementRetryCount 6 rowC2f

/-- The four-retry email trace is an execution of the dispatcher. -/
lemma reachable_rowC2g : Reachable rowC2g :=
  Reachable.step
    (Reachable.step
      (Reachable.step
        (Reachable.step
          (Reachable.step
            (Reachable.step
              (Reachable.init 1 0 none Channel.email "a@b.c" (some "Hi")
                "Hello" (some 0))
              (Step.queue rowC2a 1))
            (Step.claim rowC2b 2))
          (Step.retrySched rowC2c 3 (by decide)))
        (Step.retrySched rowC2d 4 (by decide)))
      (Step.retrySched rowC2e 5 (by decide)))
    (Step.retrySched rowC2f 6 (by decide))

/-- A freshly created email row (for the C3 invariant witness). -/
def rowC3init : Notification :=
  NotificationModel.create 7 0 (some 2) Channel.email "a@b.c" (some "Hi")
    "Hello" Status.pending (some 3) (some 0)

/-- `rowC3init` delivered at time 5: status sent, sent_at 5. -/
def rowC3 : Notification := updateNotificationStatus 5 Status.sent rowC3init

/-- An SMS-channel row as created by `sendNotification`. -/
def rowC4 : Notification :=
  NotificationModel.create 11 0 none Channel.sms "+15551234567" none
    "Hello" Status.pending (some 3) (some 0)

/-- A slack-channel row as created by `sendNotification`. -/
def rowC5a : Notification :=
  NotificationModel.create 21 0 none Channel.slack "https://hooks.example/x"
    none "hi" Status.pending (some 3) (some 0)

/-- `rowC5a` claimed by a worker. -/
def rowC5b : Notification :=
  updateNotificationStatus 1 Status.processing rowC5a

/-- `rowC5b` delivered: a row in the terminal status `sent`. -/
def rowC5c : Notification := updateNotificationStatus 2 Status.sent rowC5b

/-- `rowC5c` after `POST /api/notifications/:id/retry` re-enqueues it. -/
def rowC5d : Notification := updateNotificationStatus 3 Status.queued rowC5c

/-- The deliver-then-retry slack trace is an execution of the
dispatcher. -/
lemma reachable_rowC5c : Reachable rowC5c :=
  Reachable.step
    (Reachable.step
      (Reachable.init 21 0 none Channel.slack "https://hooks.example/x"
        none "hi" (some 0))
      (Step.claim rowC5a 1))
    (Step.complete rowC5b 2)

/-- A row stuck in `processing` since time 0 with no active job. -/
def rowC6 : Notification :=
  { NotificationModel.create 31 0 none Channel.email "a@b.c" none "x"
      Status.pending (some 3) (some 0) with
    status := Status.processing
    last_processed_at := some 0 }

/-- Worker state holding only the stalled row: empty queue, no logs. -/
def stateC6 : WorkerState :=
  { rows := [rowC6], queue := [], logs := [], console := [] }

/-- A `/send` body that is valid under the claim's validation (userId
omitted, one well-formed channel entry) but rejected by the route. -/
def bodyC8a : SendBody :=
  { userId := none
    channels := some [{ type := some "email", recipient := some "a@b.c" }]
    messageTitle := some "Hi"
    messageBody := some "Hello"
    priority := some "normal"
    scheduledAt := none }

/-- A `/send` body that is invalid under the claim's validation (a channel
entry with no type and no recipient) but accepted by the route. -/
def bodyC8b : SendBody :=
  { userId := some "1"
    channels := some [{ type := none, recipient := none }]
    messageTitle := some "Hi"
    messageBody := some "Hello"
    priority := none
    scheduledAt := none }

/-- A ten-digit phone number. -/
def phoneC9a : List Char := ['5', '5', '5', '1', '2', '3', '4', '5', '6', '7']

/-- An eleven-digit phone number without a leading plus. -/
def phoneC9b : List Char :=
  ['1', '5', '5', '5', '1', '2', '3', '4', '5', '6', '7']

/-- An eleven-digit phone number with a leading plus. -/
def phoneC9c : List Char :=
  ['+', '1', '5', '5', '5', '1', '2', '3', '4', '5', '6', '7']

/-- The most recent notification of user 1. -/
def dbRow1 : Notification :=
  NotificationModel.create 2 10 (some 1) Channel.email "a@b.c" none "x"
    Status.pending (some 3) (some 10)

/-- An older notification of user 1. -/
def dbRow2 : Notification :=
  NotificationModel.create 1 5 (some 1) Channel.sms "+15551234567" none "y"
    Status.pending (some 3) (some 5)

/-- A two-row notifications table in created_at-descending order, both
rows owned by user 1. -/
def dbC10 : List Notification := [dbRow1, dbRow2]

/-! Helper lemmas about phone-number normalization. -/

/-- Filtering to digits is idempotent. -/
lemma digitsOf_idem (s : List Char) : digitsOf (digitsOf s) = digitsOf s := by
  unfold digitsOf
  induction s with
  | nil => rfl
  | cons c cs ih =>
      by_cases h : c.isDigit = true
      · simp [List.filter_cons, h, ih]
      · simp [List.filter_cons, h, ih]

/-- A leading plus contributes no digit. -/
lemma digitsOf_cons_plus (l : List Char) :
    digitsOf ('+' :: l) = digitsOf l := by
  have h : ('+' : Char).isDigit = false := by decide
  simp [digitsOf, List.filter_cons, h]

/-- A leading one is kept by the digit filter. -/
lemma digitsOf_cons_one (l : List Char) :
    digitsOf ('1' :: l) = '1' :: digitsOf l := by
  have h : ('1' : Char).isDigit = true := by decide
  simp [digitsOf, List.filter_cons, h]

/-- Branch 1 of `formatPhoneNumber`: exactly ten digits. -/
lemma formatPhoneNumber_len10 (x : List Char)
    (h : (digitsOf x).length = 10) :
    formatPhoneNumber x = '+' :: '1' :: digitsOf x := by
  simp [formatPhoneNumber, h]

/-- Branch 2 of `formatPhoneNumber`: more than ten digits, no leading
plus. -/
lemma formatPhoneNumber_long (x : List Char)
    (h : (digitsOf x).length > 10) (hp : startsWithPlus x = false) :
    formatPhoneNumber x = '+' :: digitsOf x := by
  have h10 : ¬ (digitsOf x).length = 10 := by omega
  simp [formatPhoneNumber, h10, h, hp]

/-- Branch 3 of `formatPhoneNumber`: anything else is unchanged. -/
lemma formatPhoneNumber_other (x : List Char)
    (h10 : (digitsOf x).length ≠ 10)
    (hp : (digitsOf x).length > 10 → startsWithPlus x = true) :
    formatPhoneNumber x = x := by
  unfold formatPhoneNumber
  rw [if_neg h10, if_neg ?_]
  rintro ⟨hgt, hpl⟩
  rw [hp hgt] at hpl
  exact absurd hpl (by simp)

/-- `formatPhoneNumber` is idempotent. -/
lemma formatPhoneNumber_idem (x : List Char) :
    formatPhoneNumber (formatPhoneNumber x) = formatPhoneNumber x := by
  by_cases h10 : (digitsOf x).length = 10
  · rw [formatPhoneNumber_len10 x h10]
    apply formatPhoneNumber_other
    · rw [digitsOf_cons_plus, digitsOf_cons_one, digitsOf_idem]
      simp [h10]
    · intro _
      rfl
  · by_cases hl : (digitsOf x).length > 10 ∧ startsWithPlus x = false
    · obtain ⟨hgt, hpl⟩ := hl
      rw [formatPhoneNumber_long x hgt hpl]
      apply formatPhoneNumber_other
      · rw [digitsOf_cons_plus, digitsOf_idem]
        omega
      · intro _
        rfl
    · have hcond : (digitsOf x).length > 10 → startsWithPlus x = true := by
        intro hgt
        cases hsp : startsWithPlus x with
        | false => exact absurd ⟨hgt, hsp⟩ hl
        | true => rfl
      have h := formatPhoneNumber_other x h10 hcond
      rw [h, h]

/-- The prefix of elements satisfying `p` is the whole list exactly when
every element satisfies `p`. -/
lemma takeWhile_length_eq_iff_all {α : Type} (p : α → Bool) (l : List α) :
    (l.takeWhile p).length = l.length ↔ l.all p = true := by
  induction l with
  | nil => simp
  | cons a as ih =>
      cases hpa : p a with
      | true => simp [List.takeWhile_cons, hpa, ih]
      | false =>
          simp only [List.takeWhile_cons, hpa, Bool.false_eq_true,
            if_false, List.length_nil, List.length_cons, List.all_cons,
            Bool.false_and]
          constructor
          · intro h0
            omega
          · intro hft
            exact absurd hft (by simp)

/-! Claim theorems. -/

/-- C1 counterexample: the spec's canonical Permanent failure — the
provider rejecting the recipient as an invalid phone number — is retried
by the worker `failed` handler: on the SMS channel at retry_count 0 the
handler schedules retry attempt 1 with delay 5000 ms instead of
transitioning the row to failed. -/
theorem C1_counterexample :
    onFailed Channel.sms 0 "invalid phone number" =
      FailedAction.scheduleRetry 1 5000 := by
  decide

/-- C1 amended: the dispatcher makes no Permanent/Transient distinction.
For every channel, current retry count and error message, the `failed`
handler schedules a retry exactly when the retry count is below the
channel configuration's maxRetries; the error contributes only its message
text and never affects the decision, so errors the spec classifies as
Permanent are retried like any others. -/
theorem C1_amended :
    ∀ (ch : Channel) (rc : Nat) (msg : String),
      (onFailed ch rc msg).isRetry = true ↔
        rc < (retryConfigs ch).maxRetries := by
  intro ch rc msg
  unfold onFailed
  by_cases h : rc < (retryConfigs ch).maxRetries
  · simp [h, FailedAction.isRetry]
  · simp [h, FailedAction.isRetry]

/-- C2 counterexample: an email-channel row (created with max_retries 3)
whose adapter keeps failing reaches retry_count 4, because the retry guard
compares against the email channel configuration's maxRetries of 5, not
the row's max_retries column — so retry_count ≤ max_retries is violated on
a reachable row. -/
theorem C2_counterexample :
    Reachable rowC2g ∧ rowC2g.max_retries < rowC2g.retry_count :=
  ⟨reachable_rowC2g, by decide⟩

/-- C2 amended: at every point of every execution, a row's retry_count is
at most the *channel configuration's* maxRetries for the row's channel
(email 5, sms 3, push 4, slack 3, telegram 3) — not the per-row
max_retries column, which the retry guard never reads. -/
theorem C2_amended :
    ∀ n : Notification, Reachable n →
      n.retry_count ≤ (retryConfigs n.channel).maxRetries := by
  intro n h
  induction h with
  | init id now user_id channel recipient subject content scheduled_at =>
      exact Nat.zero_le _
  | step ha hs ih =>
      cases hs with
      | queue now => exact ih
      | claim now => exact ih
      | complete now => exact ih
      | retrySched now hlt => exact hlt
      | fail now hge => exact ih

/-- C2 witness: the amended bound instantiated on a freshly created email
row. -/
theorem C2_witness :
    rowC2a.retry_count ≤ (retryConfigs rowC2a.channel).maxRetries :=
  C2_amended rowC2a
    (Reachable.init 1 0 none Channel.email "a@b.c" (some "Hi") "Hello"
      (some 0))

/-- C3 counterexample: on a row whose sent_at is 5, updating the status to
failed resets sent_at to null (the claim says a non-sent update leaves it
unchanged), and updating the status to sent overwrites sent_at with the
new time 9 even though it was non-null (the claim says sent_at is set only
when currently null). -/
theorem C3_counterexample :
    rowC3.sent_at = some 5 ∧
    (NotificationModel.updateStatus 9 Status.failed rowC3).sent_at = none ∧
    (NotificationModel.updateStatus 9 Status.sent rowC3).sent_at = some 9 := by
  decide

/-- C3 amended: updateStatus overwrites sent_at unconditionally — to the
current time when the new status is sent and to null otherwise, never
preserving a prior value; consequently, along every execution, sent_at is
non-null exactly when the row's current status is sent (not when it was
ever sent). -/
theorem C3_amended :
    (∀ (now : Nat) (st : Status) (n : Notification),
      (NotificationModel.updateStatus now st n).sent_at =
        if st = Status.sent then some now else none) ∧
    (∀ n : Notification, Reachable n →
      (n.sent_at.isSome = true ↔ n.status = Status.sent)) := by
  constructor
  · intro now st n
    rfl
  · intro n h
    induction h with
    | init id now user_id channel recipient subject content scheduled_at =>
        simp [NotificationModel.create]
    | step ha hs ih =>
        cases hs with
        | queue now =>
            simp [updateNotificationStatus, NotificationModel.updateStatus,
              NotificationModel.updateLastProcessed]
        | claim now =>
            simp [updateNotificationStatus, NotificationModel.updateStatus,
              NotificationModel.updateLastProcessed]
        | complete now =>
            simp [updateNotificationStatus, NotificationModel.updateStatus,
              NotificationModel.updateLastProcessed]
        | retrySched now hlt =>
            simpa [NotificationModel.incrementRetryCount] using ih
        | fail now hge =>
            simp [updateNotificationStatus, NotificationModel.updateStatus,
              NotificationModel.updateLastProcessed]

/-- C3 witness: the amended rules instantiated on the concrete delivered
row and on a freshly created row. -/
theorem C3_witness :
    ((NotificationModel.updateStatus 9 Status.failed rowC3).sent_at =
      if Status.failed = Status.sent then some 9 else none) ∧
    (rowC3init.sent_at.isSome = true ↔ rowC3init.status = Status.sent) :=
  ⟨C3_amended.1 9 Status.failed rowC3,
   C3_amended.2 rowC3init
     (Reachable.init 7 0 (some 2) Channel.email "a@b.c" (some "Hi")
       "Hello" (some 0))⟩

/-- C4 counterexample: when the SMS provider rejects the message,
`SMSService.sendSMS` does not fail — it returns an ordinary result with
success false — so the job completes and the worker `completed` handler
transitions the row to sent even though the send did not succeed. -/
theorem C4_counterexample :
    (runSmsJob true (ProviderOutcome.rejected "invalid phone number") 1 2
      rowC4).status = Status.sent ∧
    sendSMS true (ProviderOutcome.rejected "invalid phone number") =
      Except.ok { success := false, error := some "invalid phone number" } :=
  ⟨rfl, rfl⟩

/-- C4 amended: adapter errors are untyped — every throw carries only a
message string (no Transient/Permanent/Misconfigured classes exist) — and
the SMS adapter does not even throw on provider rejection: a configured
SMS send always yields a job result (with `success` reflecting whether the
provider accepted), so the row transitions to sent for every provider
outcome; only a misconfigured SMS service throws, with a plain message. -/
theorem C4_amended :
    ∀ (o : ProviderOutcome) (now1 now2 : Nat) (n : Notification),
      (runSmsJob true o now1 now2 n).status = Status.sent ∧
      (∃ r : SMSResult, sendSMS true o = Except.ok r ∧
        r.success = o.isAccepted) ∧
      sendSMS false o =
        Except.error
          "SMS service is not configured. Please check Twilio settings." := by
  intro o now1 now2 n
  refine ⟨?_, ?_, rfl⟩
  · cases o <;> rfl
  · cases o with
    | accepted sid st => exact ⟨_, rfl, rfl⟩
    | rejected m => exact ⟨_, rfl, rfl⟩

/-- C5 counterexample: a reachable row in the terminal status sent
transitions again — the manual retry endpoint's `queueNotification` moves
it back to queued. -/
theorem C5_counterexample :
    Reachable rowC5c ∧ rowC5c.status = Status.sent ∧
    Step rowC5c rowC5d ∧ rowC5d.status = Status.queued :=
  ⟨reachable_rowC5c, rfl, Step.queue rowC5c 3, rfl⟩

/-- C5 amended: sent and failed are not terminal. For every reachable row
in status sent or failed, `POST /api/notifications/:id/retry` (through
`queueNotification`, which checks no status) performs a further transition
that puts the row in status queued. -/
theorem C5_amended :
    ∀ (n : Notification) (now : Nat), Reachable n →
      n.status = Status.sent ∨ n.status = Status.failed →
      Step n (updateNotificationStatus now Status.queued n) ∧
      (updateNotificationStatus now Status.queued n).status =
        Status.queued := by
  intro n now _ _
  exact ⟨Step.queue n now, rfl⟩

/-- C5 witness: the amended transition instantiated on the concrete
delivered slack row. -/
theorem C5_witness :
    Step rowC5c (updateNotificationStatus 3 Status.queued rowC5c) ∧
    (updateNotificationStatus 3 Status.queued rowC5c).status =
      Status.queued :=
  C5_amended rowC5c 3 reachable_rowC5c (Or.inl rfl)

/-- C6 counterexample: a row that `getStaleNotifications` itself reports
as stale (processing since time 0, observed at 30 minutes + 1 ms, no
active broker job) is not re-enqueued by the worker's 30-second background
task, and no stall_recovered log entry is appended — the tick leaves the
state unchanged. -/
theorem C6_counterexample :
    getStaleNotifications 1800001 30 [rowC6] = [rowC6] ∧
    healthCheckTick "ready" stateC6 = stateC6 ∧
    stateC6.queue = [] ∧ stateC6.logs = [] := by
  decide

/-- C6 amended: the 30-second background task of the standalone worker is
only a health probe — for every broker status and every state it changes
no notification row, enqueues nothing, and appends no log (it writes at
most a console line); the `stalled` event handler likewise only logs.
`getStaleNotifications` implements the stale query but no code path
re-enqueues its results. -/
theorem C6_amended :
    ∀ (redisStatus : String) (s : WorkerState) (jobId : String),
      (healthCheckTick redisStatus s).rows = s.rows ∧
      (healthCheckTick redisStatus s).queue = s.queue ∧
      (healthCheckTick redisStatus s).logs = s.logs ∧
      (onStalled jobId s).rows = s.rows ∧
      (onStalled jobId s).queue = s.queue ∧
      (onStalled jobId s).logs = s.logs := by
  intro redisStatus s jobId
  unfold healthCheckTick onStalled
  by_cases h : redisStatus = "ready" <;> simp [h]

/-- C7: the scheduled retry delay for 1-indexed attempt k equals the
spec's formula — min(base · 2^(k−1), cap ?? base·10) for exponential
channels, base for fixed channels, with the §4.5 per-channel values — and
whenever the channel configuration carries a cap, the computed delay never
exceeds it. -/
theorem C7_confirmed :
    ∀ (ch : Channel) (k : Nat), 1 ≤ k →
      retryDelay (retryConfigs ch) k = specBackoffDelay ch k ∧
      (∀ cap : Nat, (retryConfigs ch).maxBackoffDelay = some cap →
        retryDelay (retryConfigs ch) k ≤ cap) := by
  intro ch k _
  cases ch with
  | email =>
      refine ⟨by simp [retryDelay, retryConfigs, specBackoffDelay, jsOrNat], ?_⟩
      intro cap hcap
      simp only [retryConfigs] at hcap
      obtain rfl : (300000 : Nat) = cap := Option.some.inj hcap
      simp [retryDelay, retryConfigs, jsOrNat]
  | sms =>
      refine ⟨by simp [retryDelay, retryConfigs, specBackoffDelay, jsOrNat], ?_⟩
      intro cap hcap
      simp only [retryConfigs] at hcap
      obtain rfl : (600000 : Nat) = cap := Option.some.inj hcap
      simp [retryDelay, retryConfigs, jsOrNat]
  | push =>
      refine ⟨by simp [retryDelay, retryConfigs, specBackoffDelay, jsOrNat], ?_⟩
      intro cap hcap
      simp only [retryConfigs] at hcap
      obtain rfl : (120000 : Nat) = cap := Option.some.inj hcap
      simp [retryDelay, retryConfigs, jsOrNat]
  | slack =>
      refine ⟨rfl, ?_⟩
      intro cap hcap
      exact absurd hcap (by simp [retryConfigs])
  | telegram =>
      refine ⟨rfl, ?_⟩
      intro cap hcap
      exact absurd hcap (by simp [retryConfigs])

/-- C7 witness: retry attempt 3 on the email channel — delay
min(2000·2², 300000) = 8000, below the 300000 ms cap. -/
theorem C7_witness :
    1 ≤ 3 ∧
    retryDelay (retryConfigs Channel.email) 3 =
      specBackoffDelay Channel.email 3 ∧
    retryDelay (retryConfigs Channel.email) 3 ≤ 300000 :=
  ⟨by decide, (C7_confirmed Channel.email 3 (by decide)).1,
    (C7_confirmed Channel.email 3 (by decide)).2 300000 rfl⟩

/-- C8 counterexample: a body with userId omitted and one well-formed
channel entry passes the claim's validation but the route answers 400; a
body with userId present and a channel entry lacking both type and
recipient fails the claim's validation yet passes the route's validator
chain — the entry's NULL channel/recipient then violates the schema's NOT
NULL constraints, the insert throws, and the route answers 500 (not 400)
with nothing persisted. `accept` is instantiated to always-true: the
failure is forced by the NOT NULL columns alone. -/
theorem C8_counterexample :
    (specValidateSend (fun _ => true) bodyC8a = true ∧
      (postSend (fun _ _ => true) bodyC8a).respStatus = 400) ∧
    (specValidateSend (fun _ => true) bodyC8b = false ∧
      (postSend (fun _ _ => true) bodyC8b).respStatus = 500 ∧
      (postSend (fun _ _ => true) bodyC8b).persisted = 0) := by
  decide

/-- C8 amended: the route's validation requires a non-empty string userId
(so userId is mandatory, not optional), a non-empty channels array whose
entries are not inspected, non-empty message.title and message.body, and a
priority in {low, normal, high, urgent} when present; scheduledAt is never
validated. The route answers 400 exactly when this validation fails, and
then nothing is persisted. When validation passes, the route answers 201
exactly when every channel entry's insert succeeds (non-NULL channel and
recipient plus the DB-state-dependent conditions); otherwise an insert
throws and the route answers 500. -/
theorem C8_amended :
    ∀ (accept : String → ChannelEntry → Bool) (b : SendBody),
      ((postSend accept b).respStatus = 400 ↔ validateSend b = false) ∧
      (validateSend b = false → (postSend accept b).persisted = 0) ∧
      (b.userId = none → (postSend accept b).respStatus = 400) ∧
      (validateSend b = true →
        ((postSend accept b).respStatus = 201 ↔
          (b.channels.getD []).all (insertOk accept (b.userId.getD "")) =
            true)) ∧
      (∀ l l' : List ChannelEntry, l ≠ [] → l' ≠ [] →
        validateSend { b with channels := some l } =
          validateSend { b with channels := some l' }) ∧
      (∀ s s' : Option String,
        validateSend { b with scheduledAt := s } =
          validateSend { b with scheduledAt := s' }) := by
  intro accept b
  have hne : ∀ m : List ChannelEntry, m ≠ [] → m.isEmpty = false := by
    intro m hm
    cases m with
    | nil => exact absurd rfl hm
    | cons c cs => rfl
  refine ⟨?_, ?_, ?_, ?_, ?_, ?_⟩
  · cases hvb : validateSend b with
    | false => simp [postSend, hvb]
    | true =>
        by_cases hall :
            ((b.channels.getD []).takeWhile
              (insertOk accept (b.userId.getD ""))).length =
              (b.channels.getD []).length
        · simp [postSend, hvb, hall]
        · simp [postSend, hvb, hall]
  · intro h
    simp [postSend, h]
  · intro h
    have hv : validateSend b = false := by simp [validateSend, h]
    simp [postSend, hv]
  · intro hv
    constructor
    · intro h201
      by_cases hall :
          ((b.channels.getD []).takeWhile
            (insertOk accept (b.userId.getD ""))).length =
            (b.channels.getD []).length
      · exact (takeWhile_length_eq_iff_all _ _).mp hall
      · exfalso
        have h500 : (postSend accept b).respStatus = 500 := by
          simp [postSend, hv, hall]
        exact absurd (h500.symm.trans h201) (by decide)
    · intro hall
      have hlen := (takeWhile_length_eq_iff_all
        (insertOk accept (b.userId.getD "")) (b.channels.getD [])).mpr hall
      simp [postSend, hv, hlen]
  · intro l l' hl hl'
    simp [validateSend, hne l hl, hne l' hl']
  · intro s s'
    rfl

/-- C8 witness: the amended facts instantiated on the concrete bodies —
the one without a userId for the 400 facts, the one with an uninspected
empty entry for the 201-iff-inserts-succeed fact. -/
theorem C8_witness :
    ((postSend (fun _ _ => true) bodyC8a).respStatus = 400 ↔
      validateSend bodyC8a = false) ∧
    (postSend (fun _ _ => true) bodyC8a).persisted = 0 ∧
    (postSend (fun _ _ => true) bodyC8a).respStatus = 400 ∧
    ((postSend (fun _ _ => true) bodyC8b).respStatus = 201 ↔
      (bodyC8b.channels.getD []).all
        (insertOk (fun _ _ => true) (bodyC8b.userId.getD "")) = true) ∧
    validateSend { bodyC8a with channels := some [{ type := none, recipient := none }] } =
      validateSend { bodyC8a with channels := some [{ type := some "email", recipient := some "x" }] } ∧
    validateSend { bodyC8a with scheduledAt := none } =
      validateSend { bodyC8a with scheduledAt := some "2024-01-01" } :=
  ⟨(C8_amended (fun _ _ => true) bodyC8a).1,
   (C8_amended (fun _ _ => true) bodyC8a).2.1 (by decide),
   (C8_amended (fun _ _ => true) bodyC8a).2.2.1 rfl,
   (C8_amended (fun _ _ => true) bodyC8b).2.2.2.1 (by decide),
   (C8_amended (fun _ _ => true) bodyC8a).2.2.2.2.1
     [{ type := none, recipient := none }]
     [{ type := some "email", recipient := some "x" }] (by decide) (by decide),
   (C8_amended (fun _ _ => true) bodyC8a).2.2.2.2.2 none (some "2024-01-01")⟩

/-- C9: SMS phone-number normalization maps an input with exactly 10
digits to "+1" followed by those digits, maps an input with more than 10
digits and no leading "+" to "+" followed by its digits, returns every
other input unchanged, and is idempotent. -/
theorem C9_confirmed :
    (∀ x : List Char, (digitsOf x).length = 10 →
      formatPhoneNumber x = '+' :: '1' :: digitsOf x) ∧
    (∀ x : List Char, (digitsOf x).length > 10 → startsWithPlus x = false →
      formatPhoneNumber x = '+' :: digitsOf x) ∧
    (∀ x : List Char, (digitsOf x).length ≠ 10 →
      ((digitsOf x).length > 10 → startsWithPlus x = true) →
      formatPhoneNumber x = x) ∧
    (∀ x : List Char,
      formatPhoneNumber (formatPhoneNumber x) = formatPhoneNumber x) :=
  ⟨formatPhoneNumber_len10, formatPhoneNumber_long, formatPhoneNumber_other,
   formatPhoneNumber_idem⟩

/-- C9 witness: the three branches and idempotence on concrete numbers —
a 10-digit number, an 11-digit number without a plus, and an 11-digit
number with one. -/
theorem C9_witness :
    formatPhoneNumber phoneC9a = '+' :: '1' :: digitsOf phoneC9a ∧
    formatPhoneNumber phoneC9b = '+' :: digitsOf phoneC9b ∧
    formatPhoneNumber phoneC9c = phoneC9c ∧
    formatPhoneNumber (formatPhoneNumber phoneC9a) =
      formatPhoneNumber phoneC9a :=
  ⟨C9_confirmed.1 phoneC9a (by decide),
   C9_confirmed.2.1 phoneC9b (by decide) (by decide),
   C9_confirmed.2.2.1 phoneC9c (by decide) (fun _ => by decide),
   C9_confirmed.2.2.2 phoneC9a⟩

/-- C10 counterexample: on a concrete two-row table of user 1,
getUserNotifications does not return any list or total at all — the
no-status `NotificationModel.list` query it issues is rejected by
PostgreSQL (the SQL references only $2 and $3 while three parameters are
bound), so the call fails with that parse error and no paginated result
exists. -/
theorem C10_counterexample :
    getUserNotifications dbC10 "1" 1 1 =
      Except.error "could not determine data type of parameter $1" ∧
    (getUserNotifications dbC10 "1" 1 1).toOption = none :=
  ⟨rfl, rfl⟩

/-- C10 amended: getUserNotifications never returns a page — for every
table, user, page and limit it fails with PostgreSQL's parameter error,
and the route answers 500. The paginate-before-filter logic of the claim
exists in the code but only downstream of this always-failing query, so
it never executes. The fault is specific to the no-status variant: with a
status argument, `NotificationModel.list` succeeds and returns at most
`limit` rows, all of the requested status, from the created_at-descending
table. -/
theorem C10_amended :
    ∀ (db : List Notification) (userId : String) (page limit : Nat)
      (st : Status),
      getUserNotifications db userId page limit =
        Except.error "could not determine data type of parameter $1" ∧
      (∃ pageRows : List Notification,
        NotificationModel.list db limit ((page - 1) * limit) (some st) =
          Except.ok pageRows ∧
        pageRows.length ≤ limit ∧
        pageRows.all (fun n => n.status == st) = true) := by
  intro db userId page limit st
  refine ⟨rfl, _, rfl, ?_, ?_⟩
  · rw [List.length_take]
    exact Nat.min_le_left _ _
  · rw [List.all_eq_true]
    intro n hn
    have hmem : n ∈ (db.filter fun m => m.status == st) :=
      List.drop_subset _ _ (List.take_subset _ _ hn)
    exact (List.mem_filter.mp hmem).2

end NotifHub
